import Mathlib

/-!
Verification of the mercury3sc serial relay firmware (kihwal/mercury3sc).

The development shallowly embeds the core of `src/mercury3sc.ino` (the
current Teensy 2.0 firmware) together with the `term_seq` variant found in
the RP2040 dual-core source (`src/unnamed/part_002`).  Bytes are modelled
as natural numbers below 256; the C `char` type is modelled by an explicit
signedness parameter where the comparison semantics depend on it.  Machine
integers (`int` values parsed from telemetry records) are modelled as
unbounded `Int`, with C truncating division written explicitly as
`Int.tdiv`.  Serial ports are modelled as lists of bytes: the input stream
is the list of bytes the port will deliver, and writes are accumulated in
an output list.
-/

/-- The two possible signedness conventions for the C `char` type.
On AVR (Teensy 2.0) `char` is signed; on ARM (RP2040) it is unsigned. -/
inductive CharSign where
  | signed : CharSign
  | unsigned : CharSign
deriving DecidableEq, Repr

/-- The integer value a byte (bit pattern `b`, with `b < 256`) takes when it
is stored in a C `char` and promoted to `int` in a comparison. -/
def charVal (sg : CharSign) (b : Nat) : Int :=
  match sg with
  | CharSign.unsigned => (b : Int)
  | CharSign.signed => if b < 128 then (b : Int) else (b : Int) - 256

/-- Embedding of `term_seq` from `src/mercury3sc.ino` lines 108-119.
Both sides of each comparison are C `char` values (`data[i]` and the
`char` constant `M3S_TERM = 0xff`), promoted to `int` under the same
signedness convention `sg`. -/
def term_seq (sg : CharSign) (data : List Nat) : Bool :=
  if data.length < 3 then
    false
  else
    if charVal sg (data.getD (data.length - 1) 0) = charVal sg 255 ∧
       charVal sg (data.getD (data.length - 2) 0) = charVal sg 255 ∧
       charVal sg (data.getD (data.length - 3) 0) = charVal sg 255 then
      true
    else
      false

/-- Embedding of `term_seq` from `src/unnamed/part_002` lines 125-136.
There each `char` array element is compared against the `int` literal
`0xff`, so the left side is promoted under the signedness convention of
`char` while the right side is the plain integer 255. -/
def term_seq_p2 (sg : CharSign) (data : List Nat) : Bool :=
  if data.length < 3 then
    false
  else
    if charVal sg (data.getD (data.length - 1) 0) = (255 : Int) ∧
       charVal sg (data.getD (data.length - 2) 0) = (255 : Int) ∧
       charVal sg (data.getD (data.length - 3) 0) = (255 : Int) then
      true
    else
      false

/-- `M3S_BUFF_SIZE` from `src/mercury3sc.ino` line 20. -/
def M3S_BUFF_SIZE : Nat := 64

/-- Embedding of the frame-accumulation loop of `loop()` in
`src/mercury3sc.ino` lines 370-408, for a source whose pending bytes are
given as a list (a `read` that returns -1 models the empty list; with all
data immediately available the timeout branch is never the reason a
nonempty stream stops).  The first argument is the remaining stream, the
second the bytes stored in `buff` so far.  Returns the completed frame (or
`none` when the read is discarded: stray leading terminator, buffer full,
or the stream ends before termination) together with the unread rest of
the stream.  All comparisons against `M3S_TERM` in this loop are
`char`-to-`char` and hence hold exactly when the byte is 0xFF under either
signedness, so bytes are compared directly as naturals; note that `peek`
on an empty port returns -1 whose `char` cast equals `M3S_TERM`, but the
subsequent `read` then consumes nothing, so an exhausted stream drains
nothing.

`drainTerm` is that peek-and-read pair: it skips up to two further 0xFF
bytes still pending at the front of the stream once termination is
detected. -/
def drainTerm : List Nat → List Nat
  | 255 :: 255 :: rest2 => rest2
  | 255 :: rest2 => rest2
  | rest => rest

/-- The frame-accumulation loop proper (see the comment on `drainTerm`
for the conventions). -/
def readLoop : List Nat → List Nat → Option (List Nat) × List Nat
  | [], _ => (none, [])
  | c :: rest, buff =>
    if buff = [] ∧ c = 255 then
      (none, rest)
    else
      if c = 255 then
        (some (buff ++ [c] ++ [255, 255]), drainTerm rest)
      else
        if (buff ++ [c]).length = M3S_BUFF_SIZE then
          (none, rest)
        else
          readLoop rest (buff ++ [c])

/-- One invocation of the frame reader on a fresh buffer. -/
def readFrame (stream : List Nat) : Option (List Nat) × List Nat :=
  readLoop stream []

/-- One telemetry channel history (`int vol[M3S_ST_WINDOW+2]` and friends,
`src/mercury3sc.ino` lines 54-55 with `M3S_ST_WINDOW = 3`): slots 0..2 are
the ring window (`w0`,`w1`,`w2`), slot 3 is the current head index
(`head`), slot 4 is the last known good value (`last`). -/
structure ChanSt where
  w0 : Int
  w1 : Int
  w2 : Int
  head : Nat
  last : Int
deriving DecidableEq, Repr

/-- Read ring slot `i` (the C expression `st[i]` for `i < 3`). -/
def ChanSt.wIdx (st : ChanSt) : Nat → Int
  | 0 => st.w0
  | 1 => st.w1
  | 2 => st.w2
  | _ => 0

/-- Write ring slot `i` (the C store `st[i] = v` for `i < 3`). -/
def ChanSt.setW (st : ChanSt) (i : Nat) (v : Int) : ChanSt :=
  match i with
  | 0 => { st with w0 := v }
  | 1 => { st with w1 := v }
  | 2 => { st with w2 := v }
  | _ => st

/-- The absolute difference computed in `addVal`
(`src/mercury3sc.ino` line 143): `(st[i] > val) ? (st[i] - val) : (val - st[i])`. -/
def stDiff (st : ChanSt) (v : Int) (i : Nat) : Int :=
  if st.wIdx i > v then st.wIdx i - v else v - st.wIdx i

/-- One iteration of the outlier scan in `addVal`
(`src/mercury3sc.ino` lines 140-149): index `i` keeps `isGoodVal` when it
is the head slot (skipped by `continue`) or its difference from `val` does
not exceed `st[i]/4` (C truncating `int` division, `Int.tdiv`). -/
def chkOk (st : ChanSt) (v : Int) (i : Nat) : Bool :=
  decide (i = st.head) || ! decide (stDiff st v i > (st.wIdx i).tdiv 4)

/-- The final value of the `isGoodVal` flag after the scan loop of `addVal`
over `i = 0, 1, 2` (the loop only ever clears the flag, so breaking at the
first outlier produces the same flag as scanning every index). -/
def isGoodVal (st : ChanSt) (v : Int) : Bool :=
  chkOk st v 0 && chkOk st v 1 && chkOk st v 2

/-- Embedding of `addVal` from `src/mercury3sc.ino` lines 135-157: compute
the outlier flag, store `val` at the head slot, advance the head modulo 3,
and promote `val` to the last-good slot only when the flag survived.
Returns the updated channel and the flag. -/
def addVal (st : ChanSt) (v : Int) : ChanSt × Bool :=
  let good := isGoodVal st v
  let st1 := st.setW st.head v
  let st2 := { st1 with head := (st.head + 1) % 3 }
  (if good then { st2 with last := v } else st2, good)

/-- Embedding of `addValNoCheck` from `src/mercury3sc.ino` lines 159-165:
store, advance, and promote unconditionally. -/
def addValNoCheck (st : ChanSt) (v : Int) : ChanSt :=
  { st.setW st.head v with head := (st.head + 1) % 3, last := v }

/-- Spec-side outlier predicate, following the words of spec section 4.2:
some compared stored entry (all window slots except the one about to be
overwritten) differs from the new sample by more than 25 percent of that
stored value.  Used to relate `addVal`'s flag to the specification. -/
def outlierSpec (st : ChanSt) (v : Int) : Prop :=
  ∃ i, i < 3 ∧ i ≠ st.head ∧ stDiff st v i > (st.wIdx i).tdiv 4

/-- Digit-accumulation loop of C `atoi`: consume decimal digits, stopping
at the first non-digit (in particular at the temporary NUL terminator). -/
def digitsVal : List Nat → Int → Int
  | [], acc => acc
  | c :: rest, acc =>
    if 48 ≤ c ∧ c ≤ 57 then digitsVal rest (acc * 10 + ((c : Int) - 48)) else acc

/-- C `isspace` bytes skipped by `atoi`. -/
def isSpaceByte (c : Nat) : Bool :=
  c = 32 || c = 9 || c = 10 || c = 11 || c = 12 || c = 13

/-- C `atoi` on a byte string: skip spaces, optional sign, then digits;
returns 0 when no digits follow. -/
def atoi (s : List Nat) : Int :=
  match s.dropWhile isSpaceByte with
  | 45 :: rest => - digitsVal rest 0
  | 43 :: rest => digitsVal rest 0
  | rest => digitsVal rest 0

/-- Byte string of `"oa.picc=1"` (receive indicator sentinel prefix). -/
def strOaPicc1 : List Nat := [111, 97, 46, 112, 105, 99, 99, 61, 49]

/-- Byte string of `"oa.picc=2"` (transmit indicator sentinel prefix). -/
def strOaPicc2 : List Nat := [111, 97, 46, 112, 105, 99, 99, 61, 50]

/-- Byte string of `"tsw 255,1"` (secondary transmit-end marker prefix). -/
def strTsw : List Nat := [116, 115, 119, 32, 50, 53, 53, 44, 49]

/-- Byte string of `"ant1.val=1"`. -/
def strAnt1 : List Nat := [97, 110, 116, 49, 46, 118, 97, 108, 61, 49]

/-- Byte string of `"ant2.val=1"`. -/
def strAnt2 : List Nat := [97, 110, 116, 50, 46, 118, 97, 108, 61, 49]

/-- Byte string of `"ant3.val=1"`. -/
def strAnt3 : List Nat := [97, 110, 116, 51, 46, 118, 97, 108, 61, 49]

/-- Byte string of `"s.val=10"` (SWR reset command). -/
def strSval10 : List Nat := [115, 46, 118, 97, 108, 61, 49, 48]

/-- Byte string of `"c.val=0"` (current reset command). -/
def strCval0 : List Nat := [99, 46, 118, 97, 108, 61, 48]

/-- Byte string of `"p.val=0"` (power reset command). -/
def strPval0 : List Nat := [112, 46, 118, 97, 108, 61, 48]

/-- Byte string of `"r.val=0"` (reflected power reset command). -/
def strRval0 : List Nat := [114, 46, 118, 97, 108, 61, 48]

/-- `strncmp(f, pat, n) == 0` for an `n`-byte pattern `pat`: the first
`pat.length` bytes of `f` equal `pat` (the patterns compared in
`updateState` contain no NUL and the frames compared are longer than the
patterns, so C's NUL early-stop never fires). -/
def strncmpEq : List Nat → List Nat → Bool
  | _, [] => true
  | [], _ :: _ => false
  | a :: f, b :: pat => a == b && strncmpEq f pat

/-- The state touched by `updateState` in `src/mercury3sc.ino`: the
`transmit` flag, the LED level (`true` = HIGH), the six channel
histories, the mirrored antenna number, and the ordered list of frames
written to the LCD serial port by `sendLcdMsg`. -/
structure AmpSt where
  transmit : Bool
  led : Bool
  vol : ChanSt
  cur : ChanSt
  swr : ChanSt
  ref : ChanSt
  pwr : ChanSt
  tmp : ChanSt
  ant : Nat
  lcdOut : List (List Nat)
deriving DecidableEq, Repr

/-- Embedding of `sendLcdMsg` (`src/mercury3sc.ino` lines 99-102): append
the message followed by the three terminator bytes to the LCD port. -/
def sendLcdMsg (s : AmpSt) (msg : List Nat) : AmpSt :=
  { s with lcdOut := s.lcdOut ++ [msg ++ [255, 255, 255]] }

/-- Embedding of `resetLcdState` (`src/mercury3sc.ino` lines 123-132):
send the four reset commands to the LCD, then reset the four last-good
slots (SWR to 10, power, current and reflected to 0). -/
def resetLcdState (s : AmpSt) : AmpSt :=
  let s1 := sendLcdMsg s strSval10
  let s2 := sendLcdMsg s1 strCval0
  let s3 := sendLcdMsg s2 strPval0
  let s4 := sendLcdMsg s3 strRval0
  { s4 with
    swr := { s4.swr with last := 10 }
    pwr := { s4.pwr with last := 0 }
    cur := { s4.cur with last := 0 }
    ref := { s4.ref with last := 0 } }

/-- Embedding of `updateState` (`src/mercury3sc.ino` lines 169-264).
`strncmp(buff, pat, n) == 0` is modelled as `strncmpEq f pat`.  `buff[i]`
reads are `f.getD i 0`.  The integer parse temporarily NUL-terminates at
`len-3` and calls `atoi(buff+6)`, i.e. parses bytes 6 to `len-4`, which is
`(f.drop 6).take (f.length - 9)`.  The returned boolean is the `boolean`
result of the C function: `true` when the record is to be relayed. -/
def updateState (s : AmpSt) (f : List Nat) : AmpSt × Bool :=
  if f.length = 12 ∧ strncmpEq f strOaPicc1 = true then
    let s1 := { s with transmit := false, led := false }
    (resetLcdState (sendLcdMsg s1 strTsw), true)
  else if f.length = 12 ∧ strncmpEq f strOaPicc2 = true then
    ({ s with transmit := true, led := true }, true)
  else if f.length = 12 ∧ strncmpEq f strTsw = true ∧ s.transmit = true then
    let s1 := { s with transmit := false, led := false }
    (resetLcdState (sendLcdMsg s1 strOaPicc1), true)
  else if f.length = 13 ∧ strncmpEq f strAnt1 = true then
    ({ s with ant := 1 }, true)
  else if f.length = 13 ∧ strncmpEq f strAnt2 = true then
    ({ s with ant := 2 }, true)
  else if f.length = 13 ∧ strncmpEq f strAnt3 = true then
    ({ s with ant := 3 }, true)
  else if f.getD 1 0 = 46 ∧ f.getD 2 0 = 118 ∧ f.getD 3 0 = 97 ∧
          f.getD 4 0 = 108 ∧ f.getD 5 0 = 61 then
    if f.getD 6 0 = 255 then
      (s, false)
    else
      let val := atoi ((f.drop 6).take (f.length - 9))
      match f.getD 0 0 with
      | 118 =>
        if val < 100 then (s, false)
        else if s.transmit then
          let r := addVal s.vol val
          ({ s with vol := r.1 }, r.2)
        else ({ s with vol := addValNoCheck s.vol val }, true)
      | 99 =>
        if s.transmit then
          let r := addVal s.cur val
          ({ s with cur := r.1 }, r.2)
        else ({ s with cur := addValNoCheck s.cur val }, true)
      | 115 =>
        if val < 10 then (s, false)
        else if s.transmit then
          let r := addVal s.swr val
          ({ s with swr := r.1 }, r.2)
        else ({ s with swr := addValNoCheck s.swr val }, true)
      | 114 =>
        if s.transmit then
          let r := addVal s.ref val
          ({ s with ref := r.1 }, r.2)
        else ({ s with ref := addValNoCheck s.ref val }, true)
      | 112 =>
        if s.transmit then
          let r := addVal s.pwr val
          ({ s with pwr := r.1 }, r.2)
        else ({ s with pwr := addValNoCheck s.pwr val }, true)
      | 116 =>
        if s.transmit then
          let r := addVal s.tmp val
          ({ s with tmp := r.1 }, r.2)
        else ({ s with tmp := addValNoCheck s.tmp val }, true)
      | _ => (s, true)
  else
    (s, true)

/-- A state-update record frame `<key>.val=<digits>` plus terminator, as
received from the controller. -/
def mkValRec (key : Nat) (ds : List Nat) : List Nat :=
  key :: 46 :: 118 :: 97 :: 108 :: 61 :: (ds ++ [255, 255, 255])

/-- The receive-indicator sentinel frame (12 bytes). -/
def frameRx : List Nat := strOaPicc1 ++ [255, 255, 255]

/-- The transmit-indicator sentinel frame (12 bytes). -/
def frameTx : List Nat := strOaPicc2 ++ [255, 255, 255]

/-- The secondary transmit-end marker frame (12 bytes). -/
def frameTsw : List Nat := strTsw ++ [255, 255, 255]

/-- The arbiter state of `loop()`: the `dir` flag (`true` = read from the
LCD) and the `uint8_t loop_count` starvation counter. -/
structure ArbSt where
  dir : Bool
  count : Nat
deriving DecidableEq, Repr

/-- Embedding of the source-switching step of `loop()`
(`src/mercury3sc.ino` lines 429-437), given whether each port currently
reports buffered data.  `loop_count` is a `uint8_t`, so the increment
wraps at 256. -/
def arbStep (a : ArbSt) (lcdAvail ctlAvail : Bool) : ArbSt :=
  let c := (a.count + 1) % 256
  if a.dir && ! lcdAvail then
    { dir := false, count := 0 }
  else if (! a.dir) && ((! ctlAvail) || decide (c > 10)) then
    { dir := true, count := 0 }
  else
    { dir := a.dir, count := c }

/-- Iterate the arbiter step `n` times with fixed port availability. -/
def arbRun (n : Nat) (a : ArbSt) (lcdAvail ctlAvail : Bool) : ArbSt :=
  match n with
  | 0 => a
  | n + 1 => arbRun n (arbStep a lcdAvail ctlAvail) lcdAvail ctlAvail


/-- Statement helper: channel `a` agrees with channel `b` on every ring
slot except slot `k`. -/
def ringPreserved (a b : ChanSt) (k : Nat) : Prop :=
  ∀ i, i < 3 → i ≠ k → a.wIdx i = b.wIdx i

/-- A sample channel history with window `[100, 101, 99]`, head 0 and
last-good value 100, used for concrete instances. -/
def sampleChan : ChanSt :=
  { w0 := 100, w1 := 101, w2 := 99, head := 0, last := 100 }

/-- A sample relay state in RECEIVE mode (`transmit = false`) whose SWR
last-good slot holds a stale value 55 and whose LCD output log is empty,
used for concrete instances. -/
def sampleRxState : AmpSt :=
  { transmit := false, led := false,
    vol := sampleChan, cur := sampleChan, swr := { sampleChan with last := 55 },
    ref := sampleChan, pwr := sampleChan, tmp := sampleChan,
    ant := 1, lcdOut := [] }

/-- The same sample state in TRANSMIT mode. -/
def sampleTxState : AmpSt :=
  { sampleRxState with transmit := true, led := true }

example : readFrame [118, 46, 255, 255, 255] =
    (some [118, 46, 255, 255, 255], []) := by decide

example : atoi [49, 50, 53] = 125 := by decide

example : atoi [45, 57, 53] = -95 := by decide

example : atoi [255] = 0 := by decide

example : (updateState sampleRxState (mkValRec 118 [49, 50, 53])).1.vol.last = 125 := by
  decide

example : (updateState sampleTxState (mkValRec 118 [53, 48, 48])).2 = false := by decide

example : (updateState sampleTxState (mkValRec 118 [53, 48, 48])).1.vol.w0 = 500 := by
  decide

/-- `if P then true else false` is `true` exactly when `P` holds. -/
theorem ite_tf_eq_true (P : Prop) [Decidable P] : (if P then true else false) = true ↔ P := by
  split <;> simp_all

/-- A byte stored in a signed `char` never compares equal to the `int`
literal 255: its promoted value lies in [-128, 127]. -/
theorem charVal_signed_ne (b : Nat) (hb : b < 256) : charVal CharSign.signed b ≠ 255 := by
  simp only [charVal]
  split <;> omega

/-- Comparing a `char` against the `char` constant 0xFF succeeds exactly
on the byte 0xFF, under either signedness convention. -/
theorem charVal_eq_term_iff (sg : CharSign) (b : Nat) (hb : b < 256) :
    (charVal sg b = charVal sg 255) ↔ b = 255 := by
  cases sg
  · simp only [charVal]
    norm_num
    split <;> omega
  · simp only [charVal]
    omega

/-- Comparing an unsigned `char` against the `int` literal 255 agrees with
the `char`-to-`char` comparison under any signedness. -/
theorem charVal_unsigned_iff (sg : CharSign) (b : Nat) (hb : b < 256) :
    (charVal CharSign.unsigned b = (255 : Int)) ↔ (charVal sg b = charVal sg 255) := by
  rw [charVal_eq_term_iff sg b hb]
  simp only [charVal]
  omega

/-- Running the accumulation loop on a terminator-free payload followed by
the three terminator bytes, starting from a nonempty buffer with room to
spare, stores the whole payload, completes on the first terminator byte
(synthesizing two), and drains the remaining two terminator bytes from the
stream. -/
theorem readLoop_run (p : List Nat) :
    ∀ buff : List Nat, (∀ b ∈ p, b ≠ 255) → buff ≠ [] → buff.length + p.length ≤ 63 →
      readLoop (p ++ [255, 255, 255]) buff = (some (buff ++ p ++ [255, 255, 255]), []) := by
  induction p with
  | nil =>
    intro buff _ hb _
    simp only [List.nil_append, readLoop]
    simp [hb, drainTerm]
  | cons a p ih =>
    intro buff hp hb hlen
    have ha : a ≠ 255 := hp a (by simp)
    have hlen2 : (buff ++ [a]).length ≠ M3S_BUFF_SIZE := by
      simp [M3S_BUFF_SIZE]
      simp at hlen
      omega
    rw [List.cons_append, readLoop]
    rw [if_neg (by simp [hb]), if_neg ha, if_neg hlen2]
    rw [ih (buff ++ [a]) (fun b h => hp b (by simp [h])) (by simp) (by simp at hlen ⊢; omega)]
    simp

/-- The `isGoodVal` flag computed by `addVal`'s scan is cleared exactly
when the specification's outlier condition holds. -/
theorem isGoodVal_eq_false_iff (st : ChanSt) (v : Int) :
    isGoodVal st v = false ↔ outlierSpec st v := by
  constructor
  · intro h
    simp only [isGoodVal, Bool.and_eq_false_iff, chkOk, Bool.or_eq_false_iff,
      decide_eq_false_iff_not, Bool.not_eq_false', decide_eq_true_eq] at h
    rcases h with (⟨h1, h2⟩ | ⟨h1, h2⟩) | ⟨h1, h2⟩
    exacts [⟨0, by omega, h1, h2⟩, ⟨1, by omega, h1, h2⟩, ⟨2, by omega, h1, h2⟩]
  · rintro ⟨i, hi, hne, hgt⟩
    simp only [isGoodVal, Bool.and_eq_false_iff, chkOk, Bool.or_eq_false_iff,
      decide_eq_false_iff_not, Bool.not_eq_false', decide_eq_true_eq]
    interval_cases i
    · exact Or.inl (Or.inl ⟨hne, hgt⟩)
    · exact Or.inl (Or.inr ⟨hne, hgt⟩)
    · exact Or.inr ⟨hne, hgt⟩

/-- Claim C1, counterexample: the input stream `[97, 255, 98, 255, 255, 255]`
ends in three consecutive 0xFF bytes, contains no earlier occurrence of
that 3-byte run, and has an isolated 0xFF in the payload; the Frame Reader
of `src/mercury3sc.ino` does NOT return the whole sequence as one frame:
it completes the frame at the first 0xFF, synthesizes the remaining two
terminator bytes, and leaves `[98, 255, 255, 255]` unread, so the returned
frame differs from the fed sequence. -/
theorem c1_isolated_terminator_counterexample :
    readFrame [97, 255, 98, 255, 255, 255] =
      (some [97, 255, 255, 255], [98, 255, 255, 255]) ∧
    some [97, 255, 255, 255] ≠ some [97, 255, 98, 255, 255, 255] := by
  decide

/-- Claim C1 (amended): for every byte sequence of total length at most 64
that ends in the three-byte terminator run and whose payload is nonempty
and contains no 0xFF byte at all, the Frame Reader returns exactly that
sequence, terminator bytes included, as one complete frame, consuming the
whole stream.  (The original claim also allowed an earlier isolated 0xFF
byte in the payload; the counterexample shows the current reader then
truncates the frame at that byte.) -/
theorem c1_frame_reader_exact (p : List Nat) (hne : p ≠ [])
    (hnt : ∀ b ∈ p, b ≠ 255) (hlen : p.length ≤ 61) :
    readFrame (p ++ [255, 255, 255]) = (some (p ++ [255, 255, 255]), []) := by
  cases p with
  | nil => exact absurd rfl hne
  | cons a p =>
    have ha : a ≠ 255 := hnt a (by simp)
    show readLoop _ _ = _
    rw [List.cons_append, readLoop]
    rw [if_neg (by simp [ha]), if_neg ha, if_neg (by simp [M3S_BUFF_SIZE])]
    simp only [List.nil_append]
    rw [readLoop_run p [a] (fun b h => hnt b (by simp [h])) (by simp) (by simp at hlen ⊢; omega)]
    simp

/-- Witness for C1: the command record `"pdia=160"` plus terminator is
returned verbatim as one frame. -/
theorem c1_frame_reader_exact_witness :
    readFrame ([112, 100, 105, 97, 61, 49, 54, 48] ++ [255, 255, 255]) =
      (some ([112, 100, 105, 97, 61, 49, 54, 48] ++ [255, 255, 255]), []) :=
  c1_frame_reader_exact [112, 100, 105, 97, 61, 49, 54, 48]
    (by decide) (by decide) (by decide)

/-- Claim C2, counterexample: the `term_seq` of `src/unnamed/part_002`
(which compares `char` data against the `int` literal `0xff`) applied to
the buffer `[255, 255, 255]` — length 3, all three last bytes with bit
pattern 0xFF — returns `false` when `char` is a signed type, while the
same code returns `true` when `char` is unsigned; so its result is not
independent of the signedness of the byte type, contrary to the claim. -/
theorem c2_signed_term_seq_counterexample :
    term_seq_p2 CharSign.signed [255, 255, 255] = false ∧
    term_seq_p2 CharSign.unsigned [255, 255, 255] = true := by
  decide

/-- Claim C2 (amended): the `term_seq` of `src/mercury3sc.ino`, whose
comparisons are `char`-to-`char` against the `char` constant `M3S_TERM`,
returns `true` exactly on buffers of length at least 3 whose last three
bytes have bit pattern 0xFF, and this holds regardless of the signedness
of `char`; the `src/unnamed/part_002` variant agrees with it only when
`char` is unsigned (as on its RP2040 target), and under a signed `char` it
returns `false` on every input. -/
theorem c2_term_seq_signedness (sg : CharSign) (data : List Nat)
    (hb : ∀ b ∈ data, b < 256) :
    (term_seq sg data = true ↔
      3 ≤ data.length ∧ data.getD (data.length - 1) 0 = 255 ∧
      data.getD (data.length - 2) 0 = 255 ∧ data.getD (data.length - 3) 0 = 255) ∧
    term_seq_p2 CharSign.unsigned data = term_seq sg data ∧
    term_seq_p2 CharSign.signed data = false := by
  by_cases h3 : data.length < 3
  · unfold term_seq term_seq_p2
    simp [h3]
  · have hm : ∀ j, j < data.length → data.getD j 0 < 256 := by
      intro j hj
      rw [List.getD_eq_getElem data 0 hj]
      exact hb _ (List.getElem_mem hj)
    have h1 : data.getD (data.length - 1) 0 < 256 := hm _ (by omega)
    have h2 : data.getD (data.length - 2) 0 < 256 := hm _ (by omega)
    have h3b : data.getD (data.length - 3) 0 < 256 := hm _ (by omega)
    unfold term_seq term_seq_p2
    rw [if_neg h3, if_neg h3, if_neg h3]
    refine ⟨?_, ?_, ?_⟩
    · rw [ite_tf_eq_true, charVal_eq_term_iff sg _ h1, charVal_eq_term_iff sg _ h2,
        charVal_eq_term_iff sg _ h3b]
      constructor
      · intro h
        exact ⟨by omega, h⟩
      · intro h
        exact h.2
    · exact if_congr (by rw [charVal_unsigned_iff sg _ h1, charVal_unsigned_iff sg _ h2,
        charVal_unsigned_iff sg _ h3b]) rfl rfl
    · rw [if_neg]
      rintro ⟨c1, _, _⟩
      exact charVal_signed_ne _ h1 c1

/-- Witness for C2 at a signed `char` and the buffer `[118, 255, 255, 255]`. -/
theorem c2_term_seq_signedness_witness :
    (term_seq CharSign.signed [118, 255, 255, 255] = true ↔
      3 ≤ ([118, 255, 255, 255] : List Nat).length ∧
      ([118, 255, 255, 255] : List Nat).getD (([118, 255, 255, 255] : List Nat).length - 1) 0 = 255 ∧
      ([118, 255, 255, 255] : List Nat).getD (([118, 255, 255, 255] : List Nat).length - 2) 0 = 255 ∧
      ([118, 255, 255, 255] : List Nat).getD (([118, 255, 255, 255] : List Nat).length - 3) 0 = 255) ∧
    term_seq_p2 CharSign.unsigned [118, 255, 255, 255] =
      term_seq CharSign.signed [118, 255, 255, 255] ∧
    term_seq_p2 CharSign.signed [118, 255, 255, 255] = false :=
  c2_term_seq_signedness CharSign.signed [118, 255, 255, 255] (by decide)

/-- Claim C3: for every channel history with a valid cursor and every
sample `v`: `addVal` (the TRANSMIT-mode update) writes `v` into the ring
at the current cursor, preserves the other ring slots, advances the
cursor modulo the window size 3, clears its flag exactly when the
specification's outlier condition holds, and updates the last-accepted
slot exactly when the flag survived; `addValNoCheck` (the RECEIVE-mode
update) writes, advances, and promotes unconditionally.  At the
`updateState` level, an admitted drain-current record dispatches to
`addVal` in TRANSMIT mode, returning exactly its flag as the forwardable
result, and to `addValNoCheck` in RECEIVE mode, returning forwardable
unconditionally `true`. -/
theorem c3_telemetry_update (st : ChanSt) (v : Int) (hh : st.head < 3)
    (s t : AmpSt) (d : Nat) (ds : List Nat) (hd : d ≠ 255)
    (hrx : s.transmit = false) (htx : t.transmit = true) :
    (addVal st v).1.wIdx st.head = v ∧
    ringPreserved (addVal st v).1 st st.head ∧
    (addVal st v).1.head = (st.head + 1) % 3 ∧
    ((addVal st v).2 = false ↔ outlierSpec st v) ∧
    ((addVal st v).2 = true → (addVal st v).1.last = v) ∧
    ((addVal st v).2 = false → (addVal st v).1.last = st.last) ∧
    (addValNoCheck st v).wIdx st.head = v ∧
    (addValNoCheck st v).head = (st.head + 1) % 3 ∧
    (addValNoCheck st v).last = v ∧
    updateState t (mkValRec 99 (d :: ds)) =
      ({ t with cur := (addVal t.cur (atoi (d :: ds))).1 },
        (addVal t.cur (atoi (d :: ds))).2) ∧
    updateState s (mkValRec 99 (d :: ds)) =
      ({ s with cur := addValNoCheck s.cur (atoi (d :: ds)) }, true) := by
  have hds : ((mkValRec 99 (d :: ds)).drop 6).take ((mkValRec 99 (d :: ds)).length - 9)
      = d :: ds := by
    simp [mkValRec]
  have hup1 : updateState t (mkValRec 99 (d :: ds)) =
      ({ t with cur := (addVal t.cur (atoi (d :: ds))).1 },
        (addVal t.cur (atoi (d :: ds))).2) := by
    simp only [updateState, mkValRec, strncmpEq, strOaPicc1, strOaPicc2, strTsw,
      strAnt1, strAnt2, strAnt3] at hds ⊢
    simp [hd, htx, hds]
  have hup2 : updateState s (mkValRec 99 (d :: ds)) =
      ({ s with cur := addValNoCheck s.cur (atoi (d :: ds)) }, true) := by
    simp only [updateState, mkValRec, strncmpEq, strOaPicc1, strOaPicc2, strTsw,
      strAnt1, strAnt2, strAnt3] at hds ⊢
    simp [hd, hrx, hds]
  have hiff : ((addVal st v).2 = false ↔ outlierSpec st v) := by
    simpa [addVal] using isGoodVal_eq_false_iff st v
  refine ⟨?_, ?_, ?_, hiff, ?_, ?_, ?_, ?_, ?_, hup1, hup2⟩ <;> clear hiff hup1 hup2 hds
  all_goals obtain ⟨w0, w1, w2, hd0, lst⟩ := st
  all_goals simp only [ChanSt.head] at hh
  all_goals interval_cases hd0
  all_goals first
    | (intro i hi hne
       interval_cases i <;>
         simp_all [addVal, addValNoCheck, ChanSt.setW, ChanSt.wIdx, apply_ite])
    | (intro hgood
       simp_all [addVal, addValNoCheck, ChanSt.setW, ChanSt.wIdx, apply_ite])
    | simp_all [addVal, addValNoCheck, ChanSt.setW, ChanSt.wIdx, apply_ite]

/-- Witness for C3 at the sample history `[100, 101, 99]` (head 0), the
sample 102, the sample TRANSMIT and RECEIVE states, and the digit string
`"102"`. -/
theorem c3_telemetry_update_witness :
    (addVal sampleChan 102).1.wIdx sampleChan.head = 102 ∧
    ringPreserved (addVal sampleChan 102).1 sampleChan sampleChan.head ∧
    (addVal sampleChan 102).1.head = (sampleChan.head + 1) % 3 ∧
    ((addVal sampleChan 102).2 = false ↔ outlierSpec sampleChan 102) ∧
    ((addVal sampleChan 102).2 = true → (addVal sampleChan 102).1.last = 102) ∧
    ((addVal sampleChan 102).2 = false → (addVal sampleChan 102).1.last = sampleChan.last) ∧
    (addValNoCheck sampleChan 102).wIdx sampleChan.head = 102 ∧
    (addValNoCheck sampleChan 102).head = (sampleChan.head + 1) % 3 ∧
    (addValNoCheck sampleChan 102).last = 102 ∧
    updateState sampleTxState (mkValRec 99 (49 :: [48, 50])) =
      ({ sampleTxState with cur := (addVal sampleTxState.cur (atoi (49 :: [48, 50]))).1 },
        (addVal sampleTxState.cur (atoi (49 :: [48, 50]))).2) ∧
    updateState sampleRxState (mkValRec 99 (49 :: [48, 50])) =
      ({ sampleRxState with cur := addValNoCheck sampleRxState.cur (atoi (49 :: [48, 50])) },
        true) :=
  c3_telemetry_update sampleChan 102 (by decide) sampleRxState sampleTxState
    49 [48, 50] (by decide) (by decide) (by decide)

/-- Claim C4: processing the transmit sentinel, then the secondary
transmit-end marker, then the secondary marker again: the first marker
(seen while the tracker is in TRANSMIT) performs the full receive
transition — mode becomes RECEIVE, the corrective frame `"oa.picc=1"`
plus the four reset commands are emitted to the display, the SWR
last-accepted slot is reset to 10 and power, current and reflected to 0,
with every ring and cursor untouched — and the frame is forwarded; the
second (replayed) marker, arriving while already RECEIVE, changes nothing
at all, so the transition and the reset each occur exactly once. -/
theorem c4_lost_receive_recovery (s : AmpSt) :
    (updateState s frameTx).1.transmit = true ∧
    (updateState (updateState s frameTx).1 frameTsw).2 = true ∧
    (updateState (updateState s frameTx).1 frameTsw).1.transmit = false ∧
    (updateState (updateState s frameTx).1 frameTsw).1.lcdOut =
      s.lcdOut ++ [strOaPicc1 ++ [255, 255, 255], strSval10 ++ [255, 255, 255],
        strCval0 ++ [255, 255, 255], strPval0 ++ [255, 255, 255],
        strRval0 ++ [255, 255, 255]] ∧
    (updateState (updateState s frameTx).1 frameTsw).1.swr = { s.swr with last := 10 } ∧
    (updateState (updateState s frameTx).1 frameTsw).1.pwr = { s.pwr with last := 0 } ∧
    (updateState (updateState s frameTx).1 frameTsw).1.cur = { s.cur with last := 0 } ∧
    (updateState (updateState s frameTx).1 frameTsw).1.ref = { s.ref with last := 0 } ∧
    (updateState (updateState s frameTx).1 frameTsw).1.vol = s.vol ∧
    (updateState (updateState s frameTx).1 frameTsw).1.tmp = s.tmp ∧
    updateState (updateState (updateState s frameTx).1 frameTsw).1 frameTsw =
      ((updateState (updateState s frameTx).1 frameTsw).1, true) := by
  refine ⟨rfl, rfl, rfl, ?_, rfl, rfl, rfl, rfl, rfl, rfl, rfl⟩
  show (((s.lcdOut ++ [strOaPicc1 ++ [255, 255, 255]]) ++ [strSval10 ++ [255, 255, 255]])
      ++ [strCval0 ++ [255, 255, 255]] ++ [strPval0 ++ [255, 255, 255]])
      ++ [strRval0 ++ [255, 255, 255]] = _
  simp

/-- Claim C5, counterexample: processing the receive-indicator sentinel
while the tracker is already in RECEIVE (the sample state: `transmit =
false`, stale SWR last-accepted value 55, empty LCD output log) is NOT a
no-op: the SWR last-accepted slot is overwritten with 10 and five frames
are emitted to the display. -/
theorem c5_receive_replay_counterexample :
    sampleRxState.transmit = false ∧
    sampleRxState.swr.last = 55 ∧
    (updateState sampleRxState frameRx).1.swr.last = 10 ∧
    (updateState sampleRxState frameRx).1.lcdOut ≠ [] := by
  decide

/-- Claim C5 (amended): processing the receive sentinel while already in
RECEIVE re-runs the transition effects unconditionally — the mode stays
RECEIVE, the frame is forwarded, the corrective `"tsw 255,1"` frame and
the four reset commands are emitted to the display, and the four
last-accepted slots are re-reset (SWR to 10; power, current, reflected to
0) with rings, cursors, voltage and temperature untouched.  The operation
is idempotent on the retained state: a second receive sentinel produces
the identical state again except for emitting the same five display
frames once more (so on state alone, twice equals once, but the emitted
output is duplicated rather than suppressed). -/
theorem c5_receive_sentinel_effects (s : AmpSt) (_hrx : s.transmit = false) :
    (updateState s frameRx).2 = true ∧
    (updateState s frameRx).1.transmit = false ∧
    (updateState s frameRx).1.swr = { s.swr with last := 10 } ∧
    (updateState s frameRx).1.pwr = { s.pwr with last := 0 } ∧
    (updateState s frameRx).1.cur = { s.cur with last := 0 } ∧
    (updateState s frameRx).1.ref = { s.ref with last := 0 } ∧
    (updateState s frameRx).1.vol = s.vol ∧
    (updateState s frameRx).1.tmp = s.tmp ∧
    (updateState s frameRx).1.lcdOut =
      s.lcdOut ++ [strTsw ++ [255, 255, 255], strSval10 ++ [255, 255, 255],
        strCval0 ++ [255, 255, 255], strPval0 ++ [255, 255, 255],
        strRval0 ++ [255, 255, 255]] ∧
    (updateState (updateState s frameRx).1 frameRx).1 =
      { (updateState s frameRx).1 with
          lcdOut := (updateState s frameRx).1.lcdOut ++
            [strTsw ++ [255, 255, 255], strSval10 ++ [255, 255, 255],
             strCval0 ++ [255, 255, 255], strPval0 ++ [255, 255, 255],
             strRval0 ++ [255, 255, 255]] } := by
  refine ⟨rfl, rfl, rfl, rfl, rfl, rfl, rfl, rfl, ?_, ?_⟩
  · show (((s.lcdOut ++ [strTsw ++ [255, 255, 255]]) ++ [strSval10 ++ [255, 255, 255]])
        ++ [strCval0 ++ [255, 255, 255]] ++ [strPval0 ++ [255, 255, 255]])
        ++ [strRval0 ++ [255, 255, 255]] = _
    simp
  · show resetLcdState (sendLcdMsg _ strTsw) = _
    simp [resetLcdState, sendLcdMsg]
    exact ⟨rfl, rfl, rfl, rfl, rfl, rfl⟩

/-- Witness for C5 at the sample RECEIVE state. -/
theorem c5_receive_sentinel_effects_witness :
    (updateState sampleRxState frameRx).2 = true ∧
    (updateState sampleRxState frameRx).1.transmit = false ∧
    (updateState sampleRxState frameRx).1.swr = { sampleRxState.swr with last := 10 } ∧
    (updateState sampleRxState frameRx).1.pwr = { sampleRxState.pwr with last := 0 } ∧
    (updateState sampleRxState frameRx).1.cur = { sampleRxState.cur with last := 0 } ∧
    (updateState sampleRxState frameRx).1.ref = { sampleRxState.ref with last := 0 } ∧
    (updateState sampleRxState frameRx).1.vol = sampleRxState.vol ∧
    (updateState sampleRxState frameRx).1.tmp = sampleRxState.tmp ∧
    (updateState sampleRxState frameRx).1.lcdOut =
      sampleRxState.lcdOut ++ [strTsw ++ [255, 255, 255], strSval10 ++ [255, 255, 255],
        strCval0 ++ [255, 255, 255], strPval0 ++ [255, 255, 255],
        strRval0 ++ [255, 255, 255]] ∧
    (updateState (updateState sampleRxState frameRx).1 frameRx).1 =
      { (updateState sampleRxState frameRx).1 with
          lcdOut := (updateState sampleRxState frameRx).1.lcdOut ++
            [strTsw ++ [255, 255, 255], strSval10 ++ [255, 255, 255],
             strCval0 ++ [255, 255, 255], strPval0 ++ [255, 255, 255],
             strRval0 ++ [255, 255, 255]] } :=
  c5_receive_sentinel_effects sampleRxState (by decide)

set_option maxRecDepth 4000 in
/-- Claim C6, counterexample: when the arbiter is servicing the LCD
source (`dir = true`) and that source keeps reporting buffered data, the
arbiter never switches away: after 12 consecutive cycles — beyond the
claimed bound of 10 — it is still servicing the LCD, so a frame pending
on the controller source is deferred indefinitely.  The starvation
counter is only consulted in the `dir = false` branch of the code. -/
theorem c6_lcd_starvation_counterexample :
    (arbRun 12 { dir := true, count := 0 } true true).dir = true ∧
    (arbRun 100 { dir := true, count := 0 } true true).dir = true := by
  decide

/-- Claim C6 (amended): the starvation bound applies only to the
controller source.  When servicing the controller (`dir = false`) with
controller data always available, the arbiter switches to the LCD source
on the 11th cycle (when the incremented counter first exceeds 10) and not
before, so a frame pending on the LCD is serviced within 11 cycles; in
the other direction no bound exists (see the counterexample). -/
theorem c6_ctl_starvation_bound :
    arbRun 11 { dir := false, count := 0 } true true = { dir := true, count := 0 } ∧
    (arbRun 10 { dir := false, count := 0 } true true).dir = false := by
  decide

/-- Claim C7: a drain-voltage record whose parsed value is below 100 and
an SWR record whose parsed value is below 10 are rejected by the
admission checks of `updateState`: the call returns the state completely
unchanged (every ring slot, cursor and last-accepted slot of every
channel included) with forwardable `false`, in RECEIVE and TRANSMIT mode
alike (the state `s` is arbitrary, so both modes are covered). -/
theorem c7_admission_thresholds (s : AmpSt) (ds ds2 : List Nat)
    (hv : atoi ds < 100) (hs : atoi ds2 < 10) :
    updateState s (mkValRec 118 ds) = (s, false) ∧
    updateState s (mkValRec 115 ds2) = (s, false) := by
  constructor
  · match ds, hv with
    | [], _ =>
      simp [updateState, mkValRec, strncmpEq, strOaPicc1, strOaPicc2, strTsw,
        strAnt1, strAnt2, strAnt3]
    | d :: ds, hv =>
      by_cases hd : d = 255
      · subst hd
        simp [updateState, mkValRec, strncmpEq, strOaPicc1, strOaPicc2, strTsw,
          strAnt1, strAnt2, strAnt3]
      · have hds : ((mkValRec 118 (d :: ds)).drop 6).take ((mkValRec 118 (d :: ds)).length - 9)
            = d :: ds := by simp [mkValRec]
        simp only [updateState, mkValRec, strncmpEq, strOaPicc1, strOaPicc2, strTsw,
          strAnt1, strAnt2, strAnt3] at hds ⊢
        simp [hd, hds, hv]
  · match ds2, hs with
    | [], _ =>
      simp [updateState, mkValRec, strncmpEq, strOaPicc1, strOaPicc2, strTsw,
        strAnt1, strAnt2, strAnt3]
    | d :: ds2, hs =>
      by_cases hd : d = 255
      · subst hd
        simp [updateState, mkValRec, strncmpEq, strOaPicc1, strOaPicc2, strTsw,
          strAnt1, strAnt2, strAnt3]
      · have hds : ((mkValRec 115 (d :: ds2)).drop 6).take ((mkValRec 115 (d :: ds2)).length - 9)
            = d :: ds2 := by simp [mkValRec]
        simp only [updateState, mkValRec, strncmpEq, strOaPicc1, strOaPicc2, strTsw,
          strAnt1, strAnt2, strAnt3] at hds ⊢
        simp [hd, hds, hs]

/-- Witness for C7: the voltage record `"v.val=95"` (value 95 < 100) and
the SWR record `"s.val=9"` (value 9 < 10) are both discarded from the
sample RECEIVE state. -/
theorem c7_admission_thresholds_witness :
    updateState sampleRxState (mkValRec 118 [57, 53]) = (sampleRxState, false) ∧
    updateState sampleRxState (mkValRec 115 [57]) = (sampleRxState, false) :=
  c7_admission_thresholds sampleRxState [57, 53] [57] (by decide) (by decide)

/-- Claim C8: a state-update record whose `=` is immediately followed by
the 0xFF terminator byte (no digits after `=`) is discarded by
`updateState`: for any state, any key byte and any remaining bytes, the
result is the unchanged state (all rings, cursors and last-accepted slots
included) with forwardable `false`. -/
theorem c8_empty_value_discarded (s : AmpSt) (k : Nat) (rest : List Nat) :
    updateState s (k :: 46 :: 118 :: 97 :: 108 :: 61 :: 255 :: rest) = (s, false) := by
  simp [updateState, strncmpEq, strOaPicc1, strOaPicc2, strTsw, strAnt1, strAnt2, strAnt3]

/-- Claim C9: the outlier threshold in `addVal` is the truncated integer
quotient `st[i]/4` with no special case for zero.  Whenever some compared
stored entry (a non-head slot) is 0 and the new sample is nonzero at all,
the sample is classified an outlier (`addVal` returns `false`); and more
generally the threshold truncates: a stored entry of 3 has threshold
`3/4 = 0`, so any sample differing from 3 at all is likewise classified
an outlier by that entry. -/
theorem c9_zero_baseline_outlier (st : ChanSt) (v : Int) (i : Nat)
    (hi : i < 3) (hne : i ≠ st.head) :
    (st.wIdx i = 0 → v ≠ 0 → (addVal st v).2 = false) ∧
    (st.wIdx i = 3 → v ≠ 3 → (addVal st v).2 = false) := by
  have main : ∀ hchk : chkOk st v i = false, (addVal st v).2 = false := by
    intro hchk
    have : isGoodVal st v = false := by
      unfold isGoodVal
      interval_cases i <;> simp_all
    simp [addVal, this]
  constructor
  · intro hz hv
    refine main ?_
    simp [chkOk, hne, stDiff, hz]
    split <;> omega
  · intro hz hv
    refine main ?_
    simp [chkOk, hne, stDiff, hz, show Int.tdiv 3 4 = 0 from by decide]
    split <;> omega

/-- Witness for C9 at the history `[0, 100, 100]` with head 1 and the
sample 5: slot 0 is a compared entry holding 0, and the sample is
rejected as an outlier. -/
theorem c9_zero_baseline_outlier_witness :
    (({ w0 := 0, w1 := 100, w2 := 100, head := 1, last := 0 } : ChanSt).wIdx 0 = 0 →
      (5 : Int) ≠ 0 →
      (addVal { w0 := 0, w1 := 100, w2 := 100, head := 1, last := 0 } 5).2 = false) ∧
    (({ w0 := 0, w1 := 100, w2 := 100, head := 1, last := 0 } : ChanSt).wIdx 0 = 3 →
      (5 : Int) ≠ 3 →
      (addVal { w0 := 0, w1 := 100, w2 := 100, head := 1, last := 0 } 5).2 = false) :=
  c9_zero_baseline_outlier { w0 := 0, w1 := 100, w2 := 100, head := 1, last := 0 } 5 0
    (by decide) (by decide)

/-- Claim C10: evaluation at the failing input.  Feeding 63 non-terminator
bytes followed by a single 0xFF makes the reader store a 66-byte frame:
the loop's buffer-full check (`idx == M3S_BUFF_SIZE`) runs only after a
non-terminator byte, so the terminator byte is stored at index 63 and the
two synthesized terminator bytes at indices 64 and 65 of the 64-byte
`buff` array — past its end. -/
theorem c10_overflow_at_full_buffer :
    readFrame (List.replicate 63 97 ++ [255]) =
      (some (List.replicate 63 97 ++ [255, 255, 255]), []) ∧
    (List.replicate 63 97 ++ [255, 255, 255]).length = 66 ∧
    66 > M3S_BUFF_SIZE := by
  decide
